import Mathlib

/-
Verification of the resolution engine of the DataCite-affiliation-to-ROR
matcher: the fingerprint function, the checkpoint store, the multi-phase
registry client, and the resolution orchestrator, shallowly embedded from
the Rust sources (src/lib.rs, src/query/mod.rs, src/query/client.rs,
src/query/checkpoint.rs).
-/

set_option maxRecDepth 4000

namespace RorPipeline

/-- Model of the external xxhash crate's xxh3_64 function as called by the
repository: the repository treats it as a black-box deterministic 64-bit
hash of a byte sequence, so it is modelled here by a concrete deterministic
fold reduced into the 64-bit range.  No theorem below depends on which
deterministic function it is, only on determinism and on the result being
smaller than 2 to the 64. -/
def xxh3_64 (bytes : List Nat) : Nat :=
  (bytes.foldl (fun acc b => acc * 1099511628211 + b % 256) 14695981039346656037) % 2 ^ 64

/-- Lowercase hexadecimal digit character, as produced by Rust's lower-hex
formatting. -/
def hexDigitChar (n : Nat) : Char :=
  if n < 10 then Char.ofNat (48 + n) else Char.ofNat (87 + n)

/-- Embedding of Rust lower-hex formatting with zero-padding to width 16
applied to a 64-bit value: exactly the 16 nibbles, most significant
first. -/
def toHexPad16 (n : Nat) : String :=
  String.mk (((List.range 16).reverse).map (fun i => hexDigitChar (n / 16 ^ i % 16)))

/-- UTF-8 bytes of a string, as Rust's as_bytes sees them. -/
def utf8Bytes (s : String) : List Nat :=
  s.toUTF8.data.toList.map (fun b => b.toNat)

/-- Embedding of hash_affiliation from src/lib.rs. -/
def hash_affiliation (affiliation : String) : String :=
  toHexPad16 (xxh3_64 (utf8Bytes affiliation))

namespace Query

/-- Embedding of the private hash_affiliation from src/query/mod.rs. -/
def hash_affiliation (affiliation : String) : String :=
  toHexPad16 (xxh3_64 (utf8Bytes affiliation))

end Query

theorem toHexPad16_length (n : Nat) : (toHexPad16 n).length = 16 := by
  simp [toHexPad16, String.length]

theorem query_hash_length (s : String) : (Query.hash_affiliation s).length = 16 :=
  toHexPad16_length _

theorem query_hash_ne_empty (s : String) : Query.hash_affiliation s ≠ "" := by
  intro h
  have := query_hash_length s
  rw [h] at this
  simp [String.length] at this

/-- Embedding of the Checkpoint from src/query/checkpoint.rs: the in-memory
set of processed fingerprints.  The backing file is modelled as an optional
list of lines (none = the file does not exist); the path field is handled
by the orchestrator environment. -/
structure Checkpoint where
  processed : List String
deriving DecidableEq, Repr

/-- Checkpoint::new -/
def Checkpoint.new : Checkpoint := ⟨[]⟩

/-- Checkpoint::load: a missing file yields an empty checkpoint; otherwise
every nonempty line is inserted into the set. -/
def Checkpoint.load (file : Option (List String)) : Checkpoint :=
  match file with
  | none => Checkpoint.new
  | some lines =>
      lines.foldl
        (fun c l =>
          if l = "" then c
          else if l ∈ c.processed then c else ⟨c.processed ++ [l]⟩)
        Checkpoint.new

/-- Checkpoint::mark_processed: idempotent set-insert. -/
def Checkpoint.mark_processed (c : Checkpoint) (hash : String) : Checkpoint :=
  if hash ∈ c.processed then c else ⟨c.processed ++ [hash]⟩

/-- Checkpoint::is_processed -/
def Checkpoint.is_processed (c : Checkpoint) (hash : String) : Bool :=
  decide (hash ∈ c.processed)

/-- Checkpoint::save: the lines written to the file, one fingerprint per
line, overwriting the previous content. -/
def Checkpoint.save (c : Checkpoint) : List String :=
  c.processed

/-- Checkpoint::len -/
def Checkpoint.len (c : Checkpoint) : Nat :=
  c.processed.length

theorem mark_processed_mem (c : Checkpoint) (x h : String) :
    h ∈ (c.mark_processed x).processed ↔ h = x ∨ h ∈ c.processed := by
  unfold Checkpoint.mark_processed
  by_cases hx : x ∈ c.processed
  · rw [if_pos hx]
    constructor
    · exact Or.inr
    · rintro (rfl | hm)
      · exact hx
      · exact hm
  · rw [if_neg hx]
    simp [or_comm]

theorem load_some_mem (lines : List String) (h : String) :
    h ∈ (Checkpoint.load (some lines)).processed ↔ h ∈ lines ∧ h ≠ "" := by
  suffices H : ∀ (c : Checkpoint),
      h ∈ (lines.foldl
        (fun c l =>
          if l = "" then c
          else if l ∈ c.processed then c else ⟨c.processed ++ [l]⟩)
        c).processed ↔ h ∈ c.processed ∨ (h ∈ lines ∧ h ≠ "") by
    have := H Checkpoint.new
    simpa [Checkpoint.load, Checkpoint.new] using this
  induction lines with
  | nil => intro c; simp
  | cons a as ih =>
      intro c
      simp only [List.foldl_cons]
      by_cases ha : a = ""
      · rw [if_pos ha]
        rw [ih c]
        subst ha
        constructor
        · rintro (hc | ⟨hm, hne⟩)
          · exact Or.inl hc
          · exact Or.inr ⟨List.mem_cons_of_mem _ hm, hne⟩
        · rintro (hc | ⟨hm, hne⟩)
          · exact Or.inl hc
          · rcases List.mem_cons.mp hm with rfl | hm'
            · exact absurd rfl hne
            · exact Or.inr ⟨hm', hne⟩
      · rw [if_neg ha]
        have step :
            (if a ∈ c.processed then c else (⟨c.processed ++ [a]⟩ : Checkpoint))
              = c.mark_processed a := rfl
        rw [step, ih (c.mark_processed a)]
        rw [mark_processed_mem]
        constructor
        · rintro ((rfl | hc) | ⟨hm, hne⟩)
          · exact Or.inr ⟨List.mem_cons_self _ _, ha⟩
          · exact Or.inl hc
          · exact Or.inr ⟨List.mem_cons_of_mem _ hm, hne⟩
        · rintro (hc | ⟨hm, hne⟩)
          · exact Or.inl (Or.inr hc)
          · rcases List.mem_cons.mp hm with rfl | hm'
            · exact Or.inl (Or.inl rfl)
            · exact Or.inr ⟨hm', hne⟩

theorem markAll_mem (l : List String) (c : Checkpoint) (h : String) :
    h ∈ (l.foldl Checkpoint.mark_processed c).processed
      ↔ h ∈ c.processed ∨ h ∈ l := by
  induction l generalizing c with
  | nil => simp
  | cons a as ih =>
      simp only [List.foldl_cons]
      rw [ih (c.mark_processed a), mark_processed_mem]
      constructor
      · rintro ((rfl | hc) | hm)
        · exact Or.inr (List.mem_cons_self _ _)
        · exact Or.inl hc
        · exact Or.inr (List.mem_cons_of_mem _ hm)
      · rintro (hc | hm)
        · exact Or.inl (Or.inr hc)
        · rcases List.mem_cons.mp hm with rfl | hm'
          · exact Or.inl (Or.inl rfl)
          · exact Or.inr hm'

/-- Prefix test on character lists, used to model Rust str::contains. -/
def charsPrefixEq : List Char → List Char → Bool
  | [], _ => true
  | _ :: _, [] => false
  | a :: as, b :: bs => a == b && charsPrefixEq as bs

/-- Substring occurrence test on character lists. -/
def charsInfixOf (pat : List Char) : List Char → Bool
  | [] => charsPrefixEq pat []
  | s :: rest => charsPrefixEq pat (s :: rest) || charsInfixOf pat rest

/-- Model of Rust str::contains as used in src/query/client.rs. -/
def strContains (s pat : String) : Bool :=
  charsInfixOf pat.data s.data

/-- Canonical reason phrases of the HTTP status codes relevant here,
modelled from the http crate used by the client: the Display of a status
code is the numeric code followed by its canonical reason (or a fixed
placeholder), which is what the error string "HTTP {status}" carries. -/
def reasonPhrase : Nat → String
  | 400 => "Bad Request"
  | 403 => "Forbidden"
  | 404 => "Not Found"
  | 410 => "Gone"
  | 429 => "Too Many Requests"
  | 500 => "Internal Server Error"
  | 501 => "Not Implemented"
  | 502 => "Bad Gateway"
  | 503 => "Service Unavailable"
  | 504 => "Gateway Timeout"
  | _ => "<unknown status code>"

/-- The error message built by make_request for a non-retried status. -/
def httpErrorMsg (status : Nat) : String :=
  "HTTP " ++ toString status ++ " " ++ reasonPhrase status

/-- Organization object of a registry response item (src/query/client.rs). -/
structure RorOrganization where
  id : String
deriving DecidableEq, Repr

/-- One candidate item of a registry response (src/query/client.rs). -/
structure RorItem where
  chosen : Option Bool
  organization : Option RorOrganization
deriving DecidableEq, Repr

/-- One HTTP exchange outcome as seen by the client: either a response with
a status code, an optional Retry-After value and (for 2xx) the parsed item
list, or a transport-level error with reqwest's error message. -/
inductive Reply where
  | http (status : Nat) (retryAfter : Option Nat) (items : List RorItem)
  | transportErr (msg : String)
deriving DecidableEq, Repr

/-- The four query shapes issued by query_affiliation, identified by
whether the affiliation is quoted and whether single_search is set. -/
inductive UrlShape where
  | quotedSingle
  | unquotedSingle
  | quotedMulti
  | unquotedMulti
deriving DecidableEq, Repr

/-- Observable request state threaded through the client: how many HTTP
requests have been issued so far (indexing into the registry oracle), which
request shapes were issued, and the sleep durations performed. -/
structure ReqState where
  idx : Nat
  trace : List UrlShape
  sleeps : List Nat
deriving DecidableEq, Repr

/-- RorClient::extract_chosen_ror_id: only an item explicitly flagged
chosen yields an identifier. -/
def extract_chosen_ror_id (items : List RorItem) : Option String :=
  (items.find? (fun it => it.chosen == some true)).bind
    (fun it => it.organization.map (fun org => org.id))

/-- Retry loop body of RorClient::make_request: the first argument is the
remaining loop iterations (max_retries minus the iterations consumed), the
second the current attempt number used for backoff. -/
def make_request_go (registry : Nat → Reply) (url : UrlShape) :
    Nat → Nat → ReqState → Except String (Option String) × ReqState
  | 0, _, st => (.error ("Max retries exceeded"), st)
  | remaining + 1, attempt, st =>
      let st1 : ReqState :=
        { st with idx := st.idx + 1, trace := st.trace ++ [url] }
      match registry st.idx with
      | .http status retryAfter items =>
          if 200 ≤ status ∧ status ≤ 299 then
            (.ok (extract_chosen_ror_id items), st1)
          else if 500 ≤ status then
            (.error (httpErrorMsg status), st1)
          else if status = 429 then
            make_request_go registry url remaining (attempt + 1)
              { st1 with sleeps := st1.sleeps ++ [retryAfter.getD (2 ^ attempt)] }
          else
            (.error (httpErrorMsg status), st1)
      | .transportErr msg =>
          if attempt < 2 then
            make_request_go registry url remaining (attempt + 1)
              { st1 with sleeps := st1.sleeps ++ [2 ^ attempt] }
          else
            (.error msg, st1)

/-- RorClient::make_request with max_retries = 3, attempt starting at 0. -/
def make_request (registry : Nat → Reply) (url : UrlShape) (st : ReqState) :
    Except String (Option String) × ReqState :=
  make_request_go registry url 3 0 st

/-- Phase 3 of RorClient::query_affiliation: the quoted broad search, then
on error once more unquoted and broad. -/
def fallback_phase (registry : Nat → Reply) (st : ReqState) :
    Except String (Option String) × ReqState :=
  match make_request registry .quotedMulti st with
  | (.ok r, st') => (.ok r, st')
  | (.error _, st') => make_request registry .unquotedMulti st'

/-- RorClient::query_affiliation: phase 1 is the quoted restrictive search;
phase 2 (the unquoted restrictive search) runs only when the phase-1 error
message contains "500"; phase 3 (the broad search) runs only when
fallback_multi is enabled and the earlier phases were not conclusive.  The
affiliation string itself only determines the request URLs, which are
abstracted by UrlShape, so it is not a parameter here. -/
def query_affiliation (registry : Nat → Reply) (fallback_multi : Bool) :
    Except String (Option String) × ReqState :=
  let st0 : ReqState := ⟨0, [], []⟩
  let broad := fun (st : ReqState) =>
    if fallback_multi then fallback_phase registry st else (.ok none, st)
  match make_request registry .quotedSingle st0 with
  | (.ok r, st1) =>
      if r.isSome then (.ok r, st1) else broad st1
  | (.error e, st1) =>
      if strContains e ("500") then
        match make_request registry .unquotedSingle st1 with
        | (.ok r, st2) =>
            if r.isSome then (.ok r, st2) else broad st2
        | (.error e2, st2) =>
            if fallback_multi then broad st2 else (.error e2, st2)
      else
        if fallback_multi then broad st1 else (.error e, st1)

theorem extract_none_of_no_chosen (items : List RorItem)
    (hnone : ∀ it ∈ items, it.chosen ≠ some true) :
    extract_chosen_ror_id items = none := by
  unfold extract_chosen_ror_id
  rw [List.find?_eq_none.mpr]
  · rfl
  · intro it hit
    simpa using hnone it hit

theorem make_request_success (registry : Nat → Reply) (url : UrlShape)
    (st : ReqState) (status : Nat) (retryAfter : Option Nat)
    (items : List RorItem)
    (hreg : registry st.idx = .http status retryAfter items)
    (h2xx : 200 ≤ status ∧ status ≤ 299) :
    make_request registry url st
      = (.ok (extract_chosen_ror_id items),
         { st with idx := st.idx + 1, trace := st.trace ++ [url] }) := by
  unfold make_request make_request_go
  rw [hreg]
  dsimp only
  rw [if_pos h2xx]

theorem make_request_server_error (registry : Nat → Reply) (url : UrlShape)
    (st : ReqState) (status : Nat) (retryAfter : Option Nat)
    (items : List RorItem)
    (hreg : registry st.idx = .http status retryAfter items)
    (h2xx : ¬(200 ≤ status ∧ status ≤ 299))
    (h5 : 500 ≤ status) :
    make_request registry url st
      = (.error (httpErrorMsg status),
         { st with idx := st.idx + 1, trace := st.trace ++ [url] }) := by
  unfold make_request make_request_go
  rw [hreg]
  dsimp only
  rw [if_neg h2xx, if_pos h5]

/-- C5: for every successful (2xx) registry response processed in any phase
(every phase issues its request through make_request), only a candidate
explicitly flagged chosen is accepted: if no item in the returned list is
flagged chosen, that phase's result is no match, and the client never picks
among unflagged candidates. -/
theorem c5_only_chosen_accepted (registry : Nat → Reply) (url : UrlShape)
    (st : ReqState) (status : Nat) (retryAfter : Option Nat)
    (items : List RorItem)
    (hreg : registry st.idx = .http status retryAfter items)
    (h2xx : 200 ≤ status ∧ status ≤ 299)
    (hnone : ∀ it ∈ items, it.chosen ≠ some true) :
    extract_chosen_ror_id items = none
    ∧ make_request registry url st
        = (.ok none, { st with idx := st.idx + 1, trace := st.trace ++ [url] }) := by
  have hex := extract_none_of_no_chosen items hnone
  refine ⟨hex, ?_⟩
  rw [make_request_success registry url st status retryAfter items hreg h2xx, hex]

/-- Witness for C5: a 2xx response whose candidates are unflagged or
explicitly not chosen yields no match. -/
theorem c5_only_chosen_accepted_witness :
    extract_chosen_ror_id [⟨some false, some ⟨"a"⟩⟩, ⟨none, some ⟨"b"⟩⟩] = none
    ∧ make_request (fun _ => .http 200 none [⟨some false, some ⟨"a"⟩⟩, ⟨none, some ⟨"b"⟩⟩])
        .quotedSingle ⟨0, [], []⟩
        = (.ok none,
           { (⟨0, [], []⟩ : ReqState) with idx := (0 : Nat) + 1, trace := ([] : List UrlShape) ++ [.quotedSingle] }) :=
  c5_only_chosen_accepted
    (fun _ => .http 200 none [⟨some false, some ⟨"a"⟩⟩, ⟨none, some ⟨"b"⟩⟩])
    .quotedSingle ⟨0, [], []⟩ 200 none
    [⟨some false, some ⟨"a"⟩⟩, ⟨none, some ⟨"b"⟩⟩]
    rfl (by decide) (by decide)

/-- C6: an HTTP 429 response is never the surfaced outcome of the request
attempt that received it: at any attempt with budget remaining the client
sleeps for the Retry-After value if present, else the exponential backoff
for the attempt number, then retries the same request; consequently a
registry returning 429 once and then 200 with a chosen candidate yields
the match with no failure recorded for the 429. -/
theorem c6_rate_limit_retried (registry : Nat → Reply) (url : UrlShape)
    (st : ReqState) (ra : Option Nat) (items0 items : List RorItem)
    (ra2 : Option Nat) (id : String) (remaining attempt : Nat)
    (h0 : registry st.idx = .http 429 ra items0)
    (h1 : registry (st.idx + 1) = .http 200 ra2 items)
    (hid : extract_chosen_ror_id items = some id) :
    make_request_go registry url (remaining + 1) attempt st
      = make_request_go registry url remaining (attempt + 1)
          { idx := st.idx + 1, trace := st.trace ++ [url],
            sleeps := st.sleeps ++ [ra.getD (2 ^ attempt)] }
    ∧ make_request registry url st
      = (.ok (some id),
         { idx := st.idx + 1 + 1, trace := st.trace ++ [url] ++ [url],
           sleeps := st.sleeps ++ [ra.getD (2 ^ 0)] }) := by
  constructor
  · conv_lhs => unfold make_request_go
    rw [h0]
    norm_num
  · unfold make_request make_request_go
    rw [h0]
    norm_num
    unfold make_request_go
    simp only [ReqState.mk.injEq]
    rw [h1]
    norm_num [hid]

/-- Witness for C6: one 429 with Retry-After 7, then a 200 with a chosen
candidate. -/
theorem c6_rate_limit_retried_witness :
    make_request_go
      (fun i => if i = 0 then .http 429 (some 7) []
                else .http 200 none [⟨some true, some ⟨"id1"⟩⟩])
      .quotedSingle (2 + 1) 0 ⟨0, [], []⟩
      = make_request_go
          (fun i => if i = 0 then .http 429 (some 7) []
                    else .http 200 none [⟨some true, some ⟨"id1"⟩⟩])
          .quotedSingle 2 (0 + 1)
          { idx := (0 : Nat) + 1, trace := ([] : List UrlShape) ++ [.quotedSingle],
            sleeps := ([] : List Nat) ++ [(some 7).getD (2 ^ 0)] }
    ∧ make_request
      (fun i => if i = 0 then .http 429 (some 7) []
                else .http 200 none [⟨some true, some ⟨"id1"⟩⟩])
      .quotedSingle ⟨0, [], []⟩
      = (.ok (some ("id1")),
         { idx := (0 : Nat) + 1 + 1,
           trace := ([] : List UrlShape) ++ [.quotedSingle] ++ [.quotedSingle],
           sleeps := ([] : List Nat) ++ [(some 7).getD (2 ^ 0)] }) :=
  c6_rate_limit_retried
    (fun i => if i = 0 then .http 429 (some 7) []
              else .http 200 none [⟨some true, some ⟨"id1"⟩⟩])
    .quotedSingle ⟨0, [], []⟩ (some 7) [] [⟨some true, some ⟨"id1"⟩⟩] none ("id1")
    2 0 rfl rfl rfl

/-- C3 counterexample: the claim promises phase-2 fallback for every
server-side error (any HTTP 5xx), but the code falls back only when the
error message contains "500"; on HTTP 503 for the quoted restrictive query
the client surfaces the error after a single request instead of retrying
unquoted. -/
theorem c3_5xx_fallback_counterexample :
    query_affiliation
      (fun i => if i = 0 then .http 503 none []
                else .http 200 none [⟨some true, some ⟨"id1"⟩⟩]) false
      = (.error ("HTTP 503 Service Unavailable"), ⟨1, [.quotedSingle], []⟩) := by
  rfl

/-- C3 amended: if the phase-1 quoted restrictive request fails with
HTTP 500 (the only server error whose message contains "500"), the client
issues the same restrictive search unquoted as phase 2; with a registry
returning HTTP 500 for the quoted restrictive query and HTTP 200 with a
chosen candidate for the unquoted restrictive query, resolution with
fallback disabled returns the match using exactly two requests. -/
theorem c3_phase2_on_500 (registry : Nat → Reply) (ra0 ra1 : Option Nat)
    (items0 items1 : List RorItem) (id : String)
    (h0 : registry 0 = .http 500 ra0 items0)
    (h1 : registry 1 = .http 200 ra1 items1)
    (hid : extract_chosen_ror_id items1 = some id) :
    query_affiliation registry false
      = (.ok (some id), ⟨2, [.quotedSingle, .unquotedSingle], []⟩) := by
  have hp1 : make_request registry .quotedSingle ⟨0, [], []⟩
      = (.error (httpErrorMsg 500), ⟨1, [.quotedSingle], []⟩) := by
    rw [make_request_server_error registry .quotedSingle ⟨0, [], []⟩
      500 ra0 items0 h0 (by norm_num) (by norm_num)]
    rfl
  have hp2 : make_request registry .unquotedSingle ⟨1, [.quotedSingle], []⟩
      = (.ok (extract_chosen_ror_id items1),
         ⟨2, [.quotedSingle, .unquotedSingle], []⟩) := by
    rw [make_request_success registry .unquotedSingle
      ⟨1, [.quotedSingle], []⟩ 200 ra1 items1 h1 (by norm_num)]
    rfl
  have hcontains : strContains (httpErrorMsg 500) ("500") = true := by decide
  unfold query_affiliation
  simp [hp1, hcontains, hp2, hid]

/-- Witness for C3's amended theorem at a concrete registry. -/
theorem c3_phase2_on_500_witness :
    query_affiliation
      (fun i => if i = 0 then .http 500 none []
                else .http 200 none [⟨some true, some ⟨"id1"⟩⟩]) false
      = (.ok (some ("id1")), ⟨2, [.quotedSingle, .unquotedSingle], []⟩) :=
  c3_phase2_on_500
    (fun i => if i = 0 then .http 500 none []
              else .http 200 none [⟨some true, some ⟨"id1"⟩⟩])
    none none [] [⟨some true, some ⟨"id1"⟩⟩] ("id1") rfl rfl rfl

/-- C4 counterexample: with broad fallback enabled and phases 1-2 yielding
no match, the claim promises a match for any candidate present in the
phase-3 response, but the code still applies extract_chosen_ror_id: a
phase-3 response whose only candidate is unflagged produces no match. -/
theorem c4_any_candidate_counterexample :
    query_affiliation
      (fun i => if i = 0 then .http 200 none []
                else .http 200 none [⟨none, some ⟨"id2"⟩⟩]) true
      = (.ok none, ⟨2, [.quotedSingle, .quotedMulti], []⟩)
    ∧ ([⟨none, some ⟨"id2"⟩⟩] : List RorItem) ≠ [] := by
  exact ⟨rfl, by decide⟩

/-- C4 amended: when broad fallback is enabled and phases 1-2 produced no
match, the phase-3 quoted broad search returns a match exactly for a
candidate flagged as chosen, under the same tie-break rule as the other
phases. -/
theorem c4_broad_requires_chosen (registry : Nat → Reply)
    (ra0 ra1 : Option Nat) (items0 items1 : List RorItem) (id : String)
    (h0 : registry 0 = .http 200 ra0 items0)
    (hnone0 : extract_chosen_ror_id items0 = none)
    (h1 : registry 1 = .http 200 ra1 items1)
    (hid : extract_chosen_ror_id items1 = some id) :
    query_affiliation registry true
      = (.ok (some id), ⟨2, [.quotedSingle, .quotedMulti], []⟩) := by
  have hp1 : make_request registry .quotedSingle ⟨0, [], []⟩
      = (.ok (extract_chosen_ror_id items0), ⟨1, [.quotedSingle], []⟩) := by
    rw [make_request_success registry .quotedSingle ⟨0, [], []⟩
      200 ra0 items0 h0 (by norm_num)]
    rfl
  have hp3 : make_request registry .quotedMulti ⟨1, [.quotedSingle], []⟩
      = (.ok (extract_chosen_ror_id items1),
         ⟨2, [.quotedSingle, .quotedMulti], []⟩) := by
    rw [make_request_success registry .quotedMulti
      ⟨1, [.quotedSingle], []⟩ 200 ra1 items1 h1 (by norm_num)]
    rfl
  unfold query_affiliation
  simp [hp1, hnone0, fallback_phase, hp3, hid]

/-- Witness for C4's amended theorem at a concrete registry. -/
theorem c4_broad_requires_chosen_witness :
    query_affiliation
      (fun i => if i = 0 then .http 200 none []
                else .http 200 none [⟨some true, some ⟨"id2"⟩⟩]) true
      = (.ok (some ("id2")), ⟨2, [.quotedSingle, .quotedMulti], []⟩) :=
  c4_broad_requires_chosen
    (fun i => if i = 0 then .http 200 none []
              else .http 200 none [⟨some true, some ⟨"id2"⟩⟩])
    none none [] [⟨some true, some ⟨"id2"⟩⟩] ("id2") rfl rfl rfl rfl

/-- Match Record written to the success sink (src/query/mod.rs RorMatch). -/
structure RorMatch where
  affiliation : String
  affiliation_hash : String
  ror_id : String
deriving DecidableEq, Repr

/-- Failure Record written to the failure sink (src/query/mod.rs
RorMatchFailed). -/
structure RorMatchFailed where
  affiliation : String
  affiliation_hash : String
  error : String
deriving DecidableEq, Repr

/-- The files owned by the orchestrator, each modelled as an optional
content (none = the file does not exist); sink files hold parsed records
rather than their JSON lines. -/
structure Env where
  checkpointFile : Option (List String)
  matchesFile : Option (List RorMatch)
  failedFile : Option (List RorMatchFailed)
deriving DecidableEq, Repr

/-- In-memory state accumulated while units of work run: the two sink
buffers and the checkpoint. -/
structure RunState where
  matchesSink : List RorMatch
  failedSink : List RorMatchFailed
  cp : Checkpoint
deriving DecidableEq, Repr

/-- One unit of work of run_async (src/query/mod.rs, the spawned task):
query the client, write the Match or Failure record to its sink — a failed
write is only logged, modelled by the writeOk oracle dropping the record —
then mark the fingerprint processed in the checkpoint. -/
def process_unit (res : String → Except String (Option String))
    (writeOk : String → Bool) (st : RunState) (unit : String × String) :
    RunState :=
  let st1 : RunState :=
    match res unit.1 with
    | .ok (some ror_id) =>
        if writeOk unit.1 then
          { st with matchesSink := st.matchesSink ++ [⟨unit.1, unit.2, ror_id⟩] }
        else st
    | .ok none =>
        if writeOk unit.1 then
          { st with failedSink := st.failedSink ++ [⟨unit.1, unit.2, ("No match found")⟩] }
        else st
    | .error e =>
        if writeOk unit.1 then
          { st with failedSink := st.failedSink ++ [⟨unit.1, unit.2, e⟩] }
        else st
  { st1 with cp := st1.cp.mark_processed unit.2 }

/-- The checkpoint run_async starts from: loaded from the existing file
when resuming, fresh otherwise. -/
def initial_checkpoint (resume : Bool) (env : Env) : Checkpoint :=
  if resume && env.checkpointFile.isSome then Checkpoint.load env.checkpointFile
  else Checkpoint.new

/-- Embedding of run_async (src/query/mod.rs): load or create the
checkpoint, fingerprint the inputs and filter out the already-processed
ones, return untouched when nothing remains, otherwise open the sinks
(append on resume, truncate otherwise), run one unit of work per remaining
input, then persist sinks and checkpoint.  The registry client is
abstracted by the res oracle giving each affiliation's query_affiliation
outcome; the returned list is the affiliations that were dispatched to the
client.  Units are modelled in dispatch order; no claim below depends on
completion order. -/
def run_async (resume : Bool) (affiliations : List String)
    (res : String → Except String (Option String))
    (writeOk : String → Bool) (env : Env) : Env × List String :=
  let checkpoint := initial_checkpoint resume env
  let to_process :=
    (affiliations.map (fun aff => (aff, Query.hash_affiliation aff))).filter
      (fun p => !(checkpoint.is_processed p.2))
  if to_process.isEmpty then (env, [])
  else
    let matches0 :=
      if resume && env.matchesFile.isSome then env.matchesFile.getD [] else []
    let failed0 :=
      if resume && env.failedFile.isSome then env.failedFile.getD [] else []
    let final := to_process.foldl (process_unit res writeOk) ⟨matches0, failed0, checkpoint⟩
    ({ checkpointFile := some final.cp.save,
       matchesFile := some final.matchesSink,
       failedFile := some final.failedSink },
     to_process.map (fun p => p.1))

theorem process_unit_cp (res : String → Except String (Option String))
    (writeOk : String → Bool) (st : RunState) (unit : String × String) :
    (process_unit res writeOk st unit).cp = st.cp.mark_processed unit.2 := by
  unfold process_unit
  rcases res unit.1 with e | r
  · dsimp only
    by_cases hw : writeOk unit.1 <;> simp [hw]
  · rcases r with _ | id
    · dsimp only
      by_cases hw : writeOk unit.1 <;> simp [hw]
    · dsimp only
      by_cases hw : writeOk unit.1 <;> simp [hw]

theorem process_unit_one (res : String → Except String (Option String))
    (st : RunState) (unit : String × String) :
    ((∃ m : RorMatch,
        (process_unit res (fun _ => true) st unit).matchesSink = st.matchesSink ++ [m]
        ∧ m.affiliation = unit.1 ∧ m.affiliation_hash = unit.2
        ∧ (process_unit res (fun _ => true) st unit).failedSink = st.failedSink)
     ∨ (∃ f : RorMatchFailed,
        (process_unit res (fun _ => true) st unit).failedSink = st.failedSink ++ [f]
        ∧ f.affiliation = unit.1 ∧ f.affiliation_hash = unit.2
        ∧ (process_unit res (fun _ => true) st unit).matchesSink = st.matchesSink)) := by
  unfold process_unit
  rcases res unit.1 with e | r
  · right
    exact ⟨⟨unit.1, unit.2, e⟩, by simp, rfl, rfl, by simp⟩
  · rcases r with _ | id
    · right
      exact ⟨⟨unit.1, unit.2, ("No match found")⟩, by simp, rfl, rfl, by simp⟩
    · left
      exact ⟨⟨unit.1, unit.2, id⟩, by simp, rfl, rfl, by simp⟩

theorem process_unit_append (res : String → Except String (Option String))
    (writeOk : String → Bool) (st : RunState) (unit : String × String) :
    ∃ dm df,
      (process_unit res writeOk st unit).matchesSink = st.matchesSink ++ dm
      ∧ (process_unit res writeOk st unit).failedSink = st.failedSink ++ df := by
  unfold process_unit
  rcases res unit.1 with e | r
  · by_cases hw : writeOk unit.1
    · exact ⟨[], [⟨unit.1, unit.2, e⟩], by simp [hw], by simp [hw]⟩
    · exact ⟨[], [], by simp [hw], by simp [hw]⟩
  · rcases r with _ | id
    · by_cases hw : writeOk unit.1
      · exact ⟨[], [⟨unit.1, unit.2, ("No match found")⟩], by simp [hw], by simp [hw]⟩
      · exact ⟨[], [], by simp [hw], by simp [hw]⟩
    · by_cases hw : writeOk unit.1
      · exact ⟨[⟨unit.1, unit.2, id⟩], [], by simp [hw], by simp [hw]⟩
      · exact ⟨[], [], by simp [hw], by simp [hw]⟩

theorem foldl_append (res : String → Except String (Option String))
    (writeOk : String → Bool) (units : List (String × String))
    (st : RunState) :
    ∃ dm df,
      (units.foldl (process_unit res writeOk) st).matchesSink = st.matchesSink ++ dm
      ∧ (units.foldl (process_unit res writeOk) st).failedSink = st.failedSink ++ df := by
  induction units generalizing st with
  | nil => exact ⟨[], [], by simp, by simp⟩
  | cons u us ih =>
      obtain ⟨dm1, df1, hm1, hf1⟩ := process_unit_append res writeOk st u
      obtain ⟨dm2, df2, hm2, hf2⟩ := ih (process_unit res writeOk st u)
      refine ⟨dm1 ++ dm2, df1 ++ df2, ?_, ?_⟩
      · simp only [List.foldl_cons, hm2, hm1, List.append_assoc]
      · simp only [List.foldl_cons, hf2, hf1, List.append_assoc]

theorem foldl_cp_covered (res : String → Except String (Option String))
    (units : List (String × String)) (st : RunState) (h : String)
    (hmem : h ∈ (units.foldl (process_unit res (fun _ => true)) st).cp.processed) :
    h ∈ st.cp.processed
    ∨ (∃ r ∈ (units.foldl (process_unit res (fun _ => true)) st).matchesSink,
        r.affiliation_hash = h)
    ∨ (∃ r ∈ (units.foldl (process_unit res (fun _ => true)) st).failedSink,
        r.affiliation_hash = h) := by
  induction units generalizing st with
  | nil => exact Or.inl hmem
  | cons u us ih =>
      simp only [List.foldl_cons] at hmem ⊢
      rcases ih (process_unit res (fun _ => true) st u) hmem with hin | hrec
      · rw [process_unit_cp, mark_processed_mem] at hin
        rcases hin with rfl | hin
        · obtain ⟨dm, df, hm, hf⟩ :=
            foldl_append res (fun _ => true) us (process_unit res (fun _ => true) st u)
          rcases process_unit_one res st u with
            ⟨m, hm1, hma, hmh, _⟩ | ⟨f, hf1, hfa, hfh, _⟩
          · refine Or.inr (Or.inl ⟨m, ?_, hmh⟩)
            rw [hm, hm1]
            simp
          · refine Or.inr (Or.inr ⟨f, ?_, hfh⟩)
            rw [hf, hf1]
            simp
        · exact Or.inl hin
      · exact Or.inr hrec

/-- C1 counterexample: a sink write failure is only logged, and the
fingerprint is still marked processed, so the persisted checkpoint can
contain a fingerprint whose outcome record was never written to either
sink: one affiliation whose match write fails ends with the checkpoint file
holding its fingerprint while both sinks are empty. -/
theorem c1_lost_record_counterexample :
    run_async false ["X"] (fun _ => .ok (some ("id1"))) (fun _ => false)
        ⟨none, none, none⟩
      = (⟨some [Query.hash_affiliation ("X")], some [], some []⟩, ["X"]) := by
  rfl

/-- C1 amended: when every sink write succeeds (the code only logs failed
writes instead of aborting), a fingerprint is marked processed only
together with its record: every fingerprint in the checkpoint persisted by
a run that dispatched work either was already in the loaded checkpoint or
has a Match or Failure record with that fingerprint in the corresponding
persisted sink. -/
theorem c1_checkpoint_covered_amended (resume : Bool)
    (affiliations : List String)
    (res : String → Except String (Option String)) (env : Env) (h : String)
    (hwork : (run_async resume affiliations res (fun _ => true) env).2 ≠ [])
    (hmem : h ∈ ((run_async resume affiliations res (fun _ => true) env).1.checkpointFile.getD [])) :
    h ∈ (initial_checkpoint resume env).processed
    ∨ (∃ r ∈ ((run_async resume affiliations res (fun _ => true) env).1.matchesFile.getD []),
        r.affiliation_hash = h)
    ∨ (∃ r ∈ ((run_async resume affiliations res (fun _ => true) env).1.failedFile.getD []),
        r.affiliation_hash = h) := by
  by_cases hempty :
      ((affiliations.map (fun aff => (aff, Query.hash_affiliation aff))).filter
        (fun p => !((initial_checkpoint resume env).is_processed p.2))).isEmpty
  · exfalso
    apply hwork
    unfold run_async
    rw [if_pos hempty]
  · have hrun :
        run_async resume affiliations res (fun _ => true) env
          = (let final :=
              ((affiliations.map (fun aff => (aff, Query.hash_affiliation aff))).filter
                (fun p => !((initial_checkpoint resume env).is_processed p.2))).foldl
                (process_unit res (fun _ => true))
                ⟨(if resume && env.matchesFile.isSome then env.matchesFile.getD [] else []),
                 (if resume && env.failedFile.isSome then env.failedFile.getD [] else []),
                 initial_checkpoint resume env⟩
             ({ checkpointFile := some final.cp.save,
                matchesFile := some final.matchesSink,
                failedFile := some final.failedSink },
              ((affiliations.map (fun aff => (aff, Query.hash_affiliation aff))).filter
                (fun p => !((initial_checkpoint resume env).is_processed p.2))).map
                (fun p => p.1))) := by
      unfold run_async
      rw [if_neg hempty]
    rw [hrun] at hmem ⊢
    simp only [Option.getD_some] at hmem ⊢
    exact foldl_cp_covered res _ _ h hmem

/-- Witness for C1's amended theorem: one affiliation resolved to no match
with all writes succeeding. -/
theorem c1_checkpoint_covered_witness :
    Query.hash_affiliation ("X")
        ∈ (initial_checkpoint false ⟨none, none, none⟩).processed
    ∨ (∃ r ∈ ((run_async false ["X"] (fun _ => .ok none) (fun _ => true)
          ⟨none, none, none⟩).1.matchesFile.getD []),
        r.affiliation_hash = Query.hash_affiliation ("X"))
    ∨ (∃ r ∈ ((run_async false ["X"] (fun _ => .ok none) (fun _ => true)
          ⟨none, none, none⟩).1.failedFile.getD []),
        r.affiliation_hash = Query.hash_affiliation ("X")) :=
  c1_checkpoint_covered_amended false ["X"] (fun _ => .ok none)
    ⟨none, none, none⟩ (Query.hash_affiliation ("X"))
    (by decide) (by decide)

/-- C7 amended: a unit of work whose resolution is an explicit no-match
(registry reachable, no candidate accepted) writes exactly one Failure
Record with reason "No match found" — the code capitalizes the reason — to
the failure sink: not a Match Record, and not silently dropped. -/
theorem c7_no_match_failure_record (aff hash : String)
    (res : String → Except String (Option String)) (st : RunState)
    (hres : res aff = .ok none) :
    (process_unit res (fun _ => true) st (aff, hash)).failedSink
        = st.failedSink ++ [⟨aff, hash, ("No match found")⟩]
    ∧ (process_unit res (fun _ => true) st (aff, hash)).matchesSink = st.matchesSink := by
  unfold process_unit
  rw [hres]
  exact ⟨by simp, by simp⟩

/-- Witness for C7's amended theorem at a concrete unit of work. -/
theorem c7_no_match_failure_record_witness :
    (process_unit (fun _ => .ok none) (fun _ => true) ⟨[], [], ⟨[]⟩⟩
        (("X"), ("h1"))).failedSink
        = [] ++ [⟨("X"), ("h1"), ("No match found")⟩]
    ∧ (process_unit (fun _ => .ok none) (fun _ => true) ⟨[], [], ⟨[]⟩⟩
        (("X"), ("h1"))).matchesSink = [] :=
  c7_no_match_failure_record ("X") ("h1") (fun _ => .ok none) ⟨[], [], ⟨[]⟩⟩ rfl

/-- C7 counterexample: the claim's reason string "no match found" does not
match the code, which writes the record with error "No match found": the
single record written for a no-match outcome does not carry the claimed
reason. -/
theorem c7_reason_string_counterexample :
    (process_unit (fun _ => .ok none) (fun _ => true) ⟨[], [], ⟨[]⟩⟩
        (("X"), ("h1"))).failedSink
        = [⟨("X"), ("h1"), ("No match found")⟩]
    ∧ ("No match found") ≠ ("no match found") := by
  exact ⟨rfl, by decide⟩

/-- The run state after a fresh (non-resuming) run over two inputs: one
unit of work per input, starting from empty sinks and an empty
checkpoint. -/
def fresh_pair_run (A B : String)
    (res : String → Except String (Option String)) : RunState :=
  process_unit res (fun _ => true)
    (process_unit res (fun _ => true) ⟨[], [], Checkpoint.new⟩
      (A, Query.hash_affiliation A))
    (B, Query.hash_affiliation B)

/-- C2: running the orchestrator once on inputs [A, B], then again on
[A, B, C] with resume enabled using the checkpoint persisted by the first
run, queries the registry only for C and appends exactly one new outcome
record for C across the two sinks (assuming C's fingerprint collides with
neither A's nor B's, and sink writes succeed). -/
theorem c2_resume_idempotent (A B C : String)
    (res1 res2 : String → Except String (Option String)) (env0 : Env)
    (hCA : Query.hash_affiliation C ≠ Query.hash_affiliation A)
    (hCB : Query.hash_affiliation C ≠ Query.hash_affiliation B) :
    (run_async true [A, B, C] res2 (fun _ => true)
        (run_async false [A, B] res1 (fun _ => true) env0).1).2 = [C]
    ∧ ((∃ m : RorMatch,
          (run_async true [A, B, C] res2 (fun _ => true)
        (run_async false [A, B] res1 (fun _ => true) env0).1).1.matchesFile
            = some (((run_async false [A, B] res1 (fun _ => true) env0).1.matchesFile.getD []) ++ [m])
          ∧ m.affiliation = C
          ∧ (run_async true [A, B, C] res2 (fun _ => true)
        (run_async false [A, B] res1 (fun _ => true) env0).1).1.failedFile = (run_async false [A, B] res1 (fun _ => true) env0).1.failedFile)
       ∨ (∃ f : RorMatchFailed,
          (run_async true [A, B, C] res2 (fun _ => true)
        (run_async false [A, B] res1 (fun _ => true) env0).1).1.failedFile
            = some (((run_async false [A, B] res1 (fun _ => true) env0).1.failedFile.getD []) ++ [f])
          ∧ f.affiliation = C
          ∧ (run_async true [A, B, C] res2 (fun _ => true)
        (run_async false [A, B] res1 (fun _ => true) env0).1).1.matchesFile = (run_async false [A, B] res1 (fun _ => true) env0).1.matchesFile)) := by
  have hr1 :
      run_async false [A, B] res1 (fun _ => true) env0
        = ({ checkpointFile := some (fresh_pair_run A B res1).cp.save,
             matchesFile := some (fresh_pair_run A B res1).matchesSink,
             failedFile := some (fresh_pair_run A B res1).failedSink }, [A, B]) := rfl
  have hcp1 : (fresh_pair_run A B res1).cp
      = (Checkpoint.new.mark_processed
          (Query.hash_affiliation A)).mark_processed (Query.hash_affiliation B) := by
    unfold fresh_pair_run
    rw [process_unit_cp, process_unit_cp]
  have hsavemem : ∀ g : String,
      g ∈ (fresh_pair_run A B res1).cp.save ↔
        g = Query.hash_affiliation B ∨ g = Query.hash_affiliation A := by
    intro g
    show g ∈ (fresh_pair_run A B res1).cp.processed ↔ _
    rw [hcp1, mark_processed_mem, mark_processed_mem]
    simp [Checkpoint.new]
  have hA1 : (Checkpoint.load (some (fresh_pair_run A B res1).cp.save)).is_processed
      (Query.hash_affiliation A) = true := by
    unfold Checkpoint.is_processed
    rw [decide_eq_true_eq, load_some_mem, hsavemem]
    exact ⟨Or.inr rfl, query_hash_ne_empty A⟩
  have hB1 : (Checkpoint.load (some (fresh_pair_run A B res1).cp.save)).is_processed
      (Query.hash_affiliation B) = true := by
    unfold Checkpoint.is_processed
    rw [decide_eq_true_eq, load_some_mem, hsavemem]
    exact ⟨Or.inl rfl, query_hash_ne_empty B⟩
  have hC1 : (Checkpoint.load (some (fresh_pair_run A B res1).cp.save)).is_processed
      (Query.hash_affiliation C) = false := by
    unfold Checkpoint.is_processed
    rw [decide_eq_false_iff_not]
    intro hmem
    rw [load_some_mem, hsavemem] at hmem
    rcases hmem with ⟨hB' | hA', _⟩
    · exact hCB hB'
    · exact hCA hA'
  have hini : initial_checkpoint true
      ({ checkpointFile := some (fresh_pair_run A B res1).cp.save,
         matchesFile := some (fresh_pair_run A B res1).matchesSink,
         failedFile := some (fresh_pair_run A B res1).failedSink } : Env)
        = Checkpoint.load (some (fresh_pair_run A B res1).cp.save) := rfl
  have hr2 :
      run_async true [A, B, C] res2 (fun _ => true)
          ({ checkpointFile := some (fresh_pair_run A B res1).cp.save,
             matchesFile := some (fresh_pair_run A B res1).matchesSink,
             failedFile := some (fresh_pair_run A B res1).failedSink } : Env)
        = ({ checkpointFile := some (process_unit res2 (fun _ => true)
          ⟨(fresh_pair_run A B res1).matchesSink, (fresh_pair_run A B res1).failedSink,
           Checkpoint.load (some (fresh_pair_run A B res1).cp.save)⟩
          (C, Query.hash_affiliation C)).cp.save,
             matchesFile := some (process_unit res2 (fun _ => true)
          ⟨(fresh_pair_run A B res1).matchesSink, (fresh_pair_run A B res1).failedSink,
           Checkpoint.load (some (fresh_pair_run A B res1).cp.save)⟩
          (C, Query.hash_affiliation C)).matchesSink,
             failedFile := some (process_unit res2 (fun _ => true)
          ⟨(fresh_pair_run A B res1).matchesSink, (fresh_pair_run A B res1).failedSink,
           Checkpoint.load (some (fresh_pair_run A B res1).cp.save)⟩
          (C, Query.hash_affiliation C)).failedSink }, [C]) := by
    unfold run_async
    simp [hini, hA1, hB1, hC1]
  rw [hr1]
  simp only []
  rw [hr2]
  simp only [Option.getD_some]
  refine ⟨by trivial, ?_⟩
  rcases process_unit_one res2
      ⟨(fresh_pair_run A B res1).matchesSink, (fresh_pair_run A B res1).failedSink,
       Checkpoint.load (some (fresh_pair_run A B res1).cp.save)⟩
      (C, Query.hash_affiliation C) with
    ⟨m, hm, hma, _, hf⟩ | ⟨f, hf, hfa, _, hm⟩
  · refine Or.inl ⟨m, ?_, hma, ?_⟩
    · rw [hm]
    · rw [hf]
  · refine Or.inr ⟨f, ?_, hfa, ?_⟩
    · rw [hf]
    · rw [hm]

/-- Witness for C2 at concrete inputs and registry outcomes. -/
theorem c2_resume_idempotent_witness :
    (run_async true [("a"), ("b"), ("c")] (fun _ => .ok none) (fun _ => true)
        (run_async false [("a"), ("b")] (fun _ => .ok none) (fun _ => true)
          ⟨none, none, none⟩).1).2 = [("c")]
    ∧ ((∃ m : RorMatch,
          (run_async true [("a"), ("b"), ("c")] (fun _ => .ok none) (fun _ => true)
              (run_async false [("a"), ("b")] (fun _ => .ok none) (fun _ => true)
                ⟨none, none, none⟩).1).1.matchesFile
            = some (((run_async false [("a"), ("b")] (fun _ => .ok none) (fun _ => true)
                ⟨none, none, none⟩).1.matchesFile.getD []) ++ [m])
          ∧ m.affiliation = ("c")
          ∧ (run_async true [("a"), ("b"), ("c")] (fun _ => .ok none) (fun _ => true)
              (run_async false [("a"), ("b")] (fun _ => .ok none) (fun _ => true)
                ⟨none, none, none⟩).1).1.failedFile
            = (run_async false [("a"), ("b")] (fun _ => .ok none) (fun _ => true)
                ⟨none, none, none⟩).1.failedFile)
       ∨ (∃ f : RorMatchFailed,
          (run_async true [("a"), ("b"), ("c")] (fun _ => .ok none) (fun _ => true)
              (run_async false [("a"), ("b")] (fun _ => .ok none) (fun _ => true)
                ⟨none, none, none⟩).1).1.failedFile
            = some (((run_async false [("a"), ("b")] (fun _ => .ok none) (fun _ => true)
                ⟨none, none, none⟩).1.failedFile.getD []) ++ [f])
          ∧ f.affiliation = ("c")
          ∧ (run_async true [("a"), ("b"), ("c")] (fun _ => .ok none) (fun _ => true)
              (run_async false [("a"), ("b")] (fun _ => .ok none) (fun _ => true)
                ⟨none, none, none⟩).1).1.matchesFile
            = (run_async false [("a"), ("b")] (fun _ => .ok none) (fun _ => true)
                ⟨none, none, none⟩).1.matchesFile)) :=
  c2_resume_idempotent ("a") ("b") ("c") (fun _ => .ok none) (fun _ => .ok none)
    ⟨none, none, none⟩ (by decide) (by decide)

/-- C9: for every input string (including the empty string), the fingerprint
function of src/query/mod.rs is deterministic and returns a hexadecimal
string of constant width 16. -/
theorem c9_fingerprint_deterministic_fixed_width (s : String) :
    Query.hash_affiliation s = Query.hash_affiliation s
      ∧ (Query.hash_affiliation s).length = 16 :=
  ⟨rfl, query_hash_length s⟩

/-- C10: the crate-level hash_affiliation in src/lib.rs and the private
hash_affiliation in src/query/mod.rs compute identical output for every
input string (both format the 64-bit hash of the UTF-8 bytes as 16
zero-padded lowercase hex digits), so checkpoint keys and downstream join
keys agree. -/
theorem c10_hash_functions_agree (s : String) :
    hash_affiliation s = Query.hash_affiliation s :=
  rfl

/-- C8: for a set of fingerprints marked via mark_processed (fingerprints
are nonempty strings), save followed by load yields a checkpoint whose
is_processed is true for exactly the marked fingerprints; loading a
nonexistent path yields an empty checkpoint rather than an error; blank
lines in an existing file are skipped. -/
theorem c8_checkpoint_roundtrip (marked lines : List String) (f : String)
    (hne : ∀ s ∈ marked, s ≠ "") :
    ((Checkpoint.load
        (some ((marked.foldl Checkpoint.mark_processed Checkpoint.new).save))).is_processed f
          = true ↔ f ∈ marked)
    ∧ ((marked.foldl Checkpoint.mark_processed Checkpoint.new).is_processed f
          = true ↔ f ∈ marked)
    ∧ (Checkpoint.load none).is_processed f = false
    ∧ (Checkpoint.load (some ("" :: lines))).is_processed f
        = (Checkpoint.load (some lines)).is_processed f := by
  have hmarkAll : ∀ g : String,
      g ∈ (marked.foldl Checkpoint.mark_processed Checkpoint.new).processed ↔ g ∈ marked := by
    intro g
    rw [markAll_mem]
    simp [Checkpoint.new]
  refine ⟨?_, ?_, ?_, ?_⟩
  · simp only [Checkpoint.is_processed, decide_eq_true_eq, Checkpoint.save]
    rw [load_some_mem]
    constructor
    · rintro ⟨hm, _⟩
      exact (hmarkAll f).mp hm
    · intro hm
      exact ⟨(hmarkAll f).mpr hm, hne f hm⟩
  · simp only [Checkpoint.is_processed, decide_eq_true_eq]
    exact hmarkAll f
  · simp [Checkpoint.is_processed, Checkpoint.load, Checkpoint.new]
  · simp only [Checkpoint.is_processed]
    have : f ∈ (Checkpoint.load (some ("" :: lines))).processed
        ↔ f ∈ (Checkpoint.load (some lines)).processed := by
      rw [load_some_mem, load_some_mem]
      constructor
      · rintro ⟨hm, hne'⟩
        rcases List.mem_cons.mp hm with rfl | hm'
        · exact absurd rfl hne'
        · exact ⟨hm', hne'⟩
      · rintro ⟨hm, hne'⟩
        exact ⟨List.mem_cons_of_mem _ hm, hne'⟩
    rw [decide_eq_decide]
    exact this

/-- Witness for C8 at a concrete marked set, probe fingerprint and file. -/
theorem c8_checkpoint_roundtrip_witness :
    ((Checkpoint.load
        (some ((["aa", "bb"].foldl Checkpoint.mark_processed Checkpoint.new).save))).is_processed "aa"
          = true ↔ "aa" ∈ ["aa", "bb"])
    ∧ ((["aa", "bb"].foldl Checkpoint.mark_processed Checkpoint.new).is_processed "aa"
          = true ↔ "aa" ∈ ["aa", "bb"])
    ∧ (Checkpoint.load none).is_processed "aa" = false
    ∧ (Checkpoint.load (some ("" :: ["cc"]))).is_processed "aa"
        = (Checkpoint.load (some ["cc"])).is_processed "aa" :=
  c8_checkpoint_roundtrip ["aa", "bb"] ["cc"] "aa" (by decide)

end RorPipeline
